import Mathlib

/-!
Shallow embedding of the pybleau client library (src/pybleau/auth.py,
src/pybleau/metadata.py, src/pybleau/workbooks.py) and verification of the
specification claims about it.

JSON values decoded by `response.json()` are modelled by the inductive `J`.
Python's `None` coincides with the JSON `null`, and Python truthiness of a
decoded value is modelled by `truthy`.  Network interaction is modelled by
passing the (already received) HTTP response explicitly to each operation;
a transport-level exception from the HTTP library is a distinguished
response alternative.
-/

namespace Pybleau

mutual
/-- A decoded JSON value (the result of `response.json()` in the source).
Objects keep their keys unique and in insertion order. -/
inductive J where
  | null
  | bool (b : Bool)
  | num (n : Int)
  | str (s : String)
  | arr (xs : JList)
  | obj (fields : JFields)
  deriving DecidableEq
/-- A JSON array, as a bespoke list so that equality is decidable. -/
inductive JList where
  | nil
  | cons (hd : J) (tl : JList)
  deriving DecidableEq
/-- The fields of a JSON object, in insertion order. -/
inductive JFields where
  | nil
  | fcons (k : String) (v : J) (tl : JFields)
  deriving DecidableEq
end

/-- Whether a JSON array is empty. -/
def JList.isEmpty : JList → Bool
  | .nil => true
  | .cons _ _ => false

/-- Whether a JSON object has no fields. -/
def JFields.isEmpty : JFields → Bool
  | .nil => true
  | .fcons _ _ _ => false

/-- Python truthiness of a decoded JSON value (`if x:`). -/
def truthy : J → Bool
  | .null => false
  | .bool b => b
  | .num n => n != 0
  | .str s => s != ""
  | .arr xs => !xs.isEmpty
  | .obj fs => !fs.isEmpty

/-- Object field lookup: `d[k]` returns the stored value; `none` here stands
for a `KeyError`.  `"k" in d` is `(lookupF d k).isSome`. -/
def lookupF : JFields → String → Option J
  | .nil, _ => none
  | .fcons k v rest, key => if k = key then some v else lookupF rest key

/-- `d.get(k)` (default `None`): a stored JSON `null` decodes to Python
`None`, which is also what `d.get` returns when the key is absent, so both
cases collapse to `none`. -/
def pyGet (fs : JFields) (key : String) : Option J :=
  match lookupF fs key with
  | some J.null => none
  | r => r

/-- `d.get(k, {})`: the stored value if the key is present (a stored `null`
is Python `None`), the empty dict otherwise. -/
def pyGetD (fs : JFields) (key : String) : J :=
  match lookupF fs key with
  | some v => v
  | none => J.obj .nil

/-- Replace the value stored at a key, keeping insertion order (Python
`d[k] = v` on a key that is already present). -/
def setKey : JFields → String → J → JFields
  | .nil, _, _ => .nil
  | .fcons k v rest, key, nv =>
      if k = key then .fcons k nv rest else .fcons k v (setKey rest key nv)

/-- Result of a piece of Python code that may raise an exception which the
surrounding code does not handle. -/
inductive PyResult (α : Type) where
  | ok (a : α)
  | exn
  deriving DecidableEq

/-! ## Session / auth (src/pybleau/auth.py, class TableauClient)

Only the mutable session fields are modelled; `server_url`, `token_name`,
`token_secret`, `site_id` and `api_version` are set once by the constructor
and never written again, and no claim depends on their values. -/

/-- The mutable session state of a `TableauClient`.  `auth_token` and
`site_uuid` hold decoded JSON values; `none` is Python `None`. -/
structure ClientState where
  auth_token : Option J
  site_uuid : Option J
  deriving DecidableEq

/-- The state right after `__init__`: both fields are `None`. -/
def initState : ClientState := ⟨none, none⟩

/-- `TableauClient.is_authenticated`: `self.auth_token is not None`. -/
def is_authenticated (st : ClientState) : Bool := st.auth_token.isSome

/-- Python truthiness of an optional value (`if self.auth_token:`). -/
def optTruthy : Option J → Bool
  | none => false
  | some v => truthy v

/-- `TableauClient.headers`: always a Content-Type entry, plus the
X-Tableau-Auth entry when `self.auth_token` is truthy. -/
def headers (st : ClientState) : List (String × J) :=
  let base := [("Content-Type", J.str "application/json")]
  if optTruthy st.auth_token then
    base ++ [("X-Tableau-Auth", st.auth_token.getD J.null)]
  else base

/-- Lookup in a header list. -/
def hLookup : List (String × J) → String → Option J
  | [], _ => none
  | (k, v) :: rest, key => if k = key then some v else hLookup rest key

/-- The network outcome seen by one `authenticate()` call: either
`requests.post` raised a transport exception, or a response arrived with a
status code and a body (`body = none` models a body `response.json()`
cannot decode). -/
structure AuthNet where
  transportExn : Bool
  status : Nat
  body : Option J
  deriving DecidableEq

/-- What `authenticate()` does after the network interaction: re-raise the
transport exception, or return a boolean. -/
inductive AuthResult where
  | raisedTransport
  | returned (ok : Bool)
  deriving DecidableEq

/-- `TableauClient.authenticate`, given the session state and the network
outcome; returns the new state and the call's result.

Mirrors the source: on status 200 it runs
`data = response.json()`, `credentials = data.get("credentials", {})`,
`self.auth_token = credentials.get("token")`,
`site_info = credentials.get("site", {})`,
`self.site_uuid = site_info.get("id")`, `return True`;
any exception in that block other than a transport error is swallowed by
the final `except Exception` clause, which returns `False` — note that when
`site_info` is not a dict the token assignment has already happened.  On a
non-200 status it prints and returns `False` (the 401 diagnostic printing
swallows its own exceptions and touches no state). -/
def authenticate (st : ClientState) (net : AuthNet) : ClientState × AuthResult :=
  if net.transportExn then (st, .raisedTransport)
  else if net.status = 200 then
    match net.body with
    | none => (st, .returned false)          -- response.json() raised; caught
    | some data =>
      match data with
      | .obj dataF =>
        match pyGetD dataF "credentials" with
        | .obj credF =>
          let st1 : ClientState := ⟨pyGet credF "token", st.site_uuid⟩
          match pyGetD credF "site" with
          | .obj siteF => (⟨st1.auth_token, pyGet siteF "id"⟩, .returned true)
          | _ => (st1, .returned false)      -- site_info.get("id") raised; caught
        | _ => (st, .returned false)         -- credentials.get raised; caught
      | _ => (st, .returned false)           -- data.get raised; caught
  else (st, .returned false)

/-- The network outcome seen by one `signout()` call when it does reach the
network: a response with a status code, or a transport exception. -/
inductive SignoutNet where
  | response (status : Nat)
  | transportExn
  deriving DecidableEq

/-- `TableauClient.signout`, given the session state and the network
outcome; returns the new state and the returned boolean.  When the client
is not authenticated it returns `True` without touching the network, which
is modelled by the result not depending on `net`. -/
def signout (st : ClientState) (net : SignoutNet) : ClientState × Bool :=
  if is_authenticated st then
    match net with
    | .response status => (⟨none, none⟩, status = 204)
    | .transportExn => (⟨none, none⟩, false)
  else (st, true)

/-- The session states reachable by construction followed by any sequence
of `authenticate` and `signout` calls, under arbitrary network outcomes. -/
inductive Reachable : ClientState → Prop where
  | init : Reachable initState
  | auth (st : ClientState) (net : AuthNet) :
      Reachable st → Reachable (authenticate st net).1
  | sout (st : ClientState) (net : SignoutNet) :
      Reachable st → Reachable (signout st net).1

/-! ## Metadata / GraphQL client (src/pybleau/metadata.py, MetadataAPI) -/

/-- An HTTP response as seen by `MetadataAPI.query`: status code, the
optional Retry-After header, the raw body text, and the decoded JSON body
(`none` when `response.json()` raises a decode error). -/
structure HttpResponse where
  status : Nat
  retryAfter : Option String
  rawBody : String
  body : Option J
  deriving DecidableEq

/-- The observable outcome of one `MetadataAPI.query` call.  Each
constructor is one exit of the source function:
`emptyQuery` is the `ValueError("Query cannot be empty")` raised before any
network call; `rateLimited` the 429 `Exception` carrying the Retry-After
hint; `serverErr` the `Exception` for status ≥ 500 carrying the raw body;
`graphqlBad` the `ValueError("GraphQL syntax error: ...")` for a 400 whose
decoded body has an `errors` field; `badRequest` the
`ValueError("Bad request: ...")` for other 400s; `httpErr` the
`requests.HTTPError` from `raise_for_status()`; `decodeErr` an uncaught
JSON decode error from `response.json()`; `typeErr` an uncaught `TypeError`
from an `in` test or subscript on a non-container body; `executionErr` the
`ValueError("GraphQL execution error: ...")`; `success` the decoded body
returned unchanged. -/
inductive QueryOutcome where
  | emptyQuery
  | rateLimited (hint : String)
  | serverErr (body : String)
  | graphqlBad (errors : J)
  | badRequest (body : String)
  | httpErr (status : Nat)
  | decodeErr
  | typeErr
  | executionErr (errors : J)
  | success (data : J)
  deriving DecidableEq

/-- Whether a non-empty pattern occurs as a substring (Python `p in s` on
strings). -/
def strContains (s pat : String) : Bool := (s.splitOn pat).length > 1

/-- Whether a JSON array has the string `s` among its elements (Python
`s in xs` on a list: each element is compared to `s` with `==`). -/
def hasStrElem (s : String) : JList → Bool
  | .nil => false
  | .cons (J.str t) rest => t == s || hasStrElem s rest
  | .cons _ rest => hasStrElem s rest

/-- Result of the pair `"errors" in x` / `x["errors"]` on a decoded JSON
body `x`: `found v` when the test succeeds and the subscript yields `v`;
`foundBad` when the test succeeds but the subscript raises a `TypeError`
(string or list body); `absent` when the test fails; `notContainer` when
the `in` test itself raises a `TypeError`. -/
inductive ErrorsField where
  | found (v : J)
  | foundBad
  | absent
  | notContainer
  deriving DecidableEq

/-- Evaluate `"errors" in x` and, when present, `x["errors"]`. -/
def errorsField : J → ErrorsField
  | .obj fs =>
      match lookupF fs "errors" with
      | some v => .found v
      | none => .absent
  | .str s => if strContains s "errors" then .foundBad else .absent
  | .arr xs => if hasStrElem "errors" xs then .foundBad else .absent
  | _ => .notContainer

/-- `MetadataAPI.query`, given the query string and the HTTP response of
the single POST it performs.  Mirrors the source: empty-query check, then
the status dispatch `429` / `>= 500` / `== 400`, then
`raise_for_status()` (which raises exactly for 400 ≤ status < 600), then
the decoded body's `errors` check. -/
def metadataQuery (query : String) (resp : HttpResponse) : QueryOutcome :=
  if query = "" then .emptyQuery
  else if resp.status = 429 then .rateLimited (resp.retryAfter.getD "unknown")
  else if 500 ≤ resp.status then .serverErr resp.rawBody
  else if resp.status = 400 then
    match resp.body with
    | none => .decodeErr
    | some errorData =>
      match errorsField errorData with
      | .found e => .graphqlBad e
      | .foundBad => .typeErr
      | .absent => .badRequest resp.rawBody
      | .notContainer => .typeErr
  else if 400 ≤ resp.status then .httpErr resp.status
  else
    match resp.body with
    | none => .decodeErr
    | some data =>
      match errorsField data with
      | .found e => .executionErr e
      | .foundBad => .typeErr
      | .absent => .success data
      | .notContainer => .typeErr

/-! ## Workbooks (src/pybleau/workbooks.py, WorkbookManager) -/

/-- The body of the list comprehension
`[tag["label"] for tag in v]` over a JSON array `v`: each element must be
an object carrying a `label` field, otherwise the subscript raises. -/
def extractLabels : JList → PyResult JList
  | .nil => .ok .nil
  | .cons (J.obj tf) rest =>
      match lookupF tf "label" with
      | some l =>
          match extractLabels rest with
          | .ok ls => .ok (.cons l ls)
          | .exn => .exn
      | none => .exn                        -- KeyError
  | .cons _ _ => .exn                       -- subscript on a non-dict tag

/-- `[tag["label"] for tag in tagsValue]` where `tagsValue` is the raw
value stored under `"tag"`: iterating a string yields its characters and a
dict its keys, which the `["label"]` subscript then rejects unless the
iteration is empty; `None`, numbers and booleans are not iterable. -/
def labelsOf : J → PyResult JList
  | .arr ts => extractLabels ts
  | .str s => if s = "" then .ok .nil else .exn
  | .obj fs => if fs.isEmpty then .ok .nil else .exn
  | _ => .exn

/-- `WorkbookManager._transform_tags` on the raw value stored under a
workbook's `tags` key (typed `Optional[Dict]` in the source, but fed any
decoded JSON value by `_transform_workbook`).  The guard is
`if not tags_data or "tag" not in tags_data: return []`; a truthy non-dict
value makes the `in` test raise a `TypeError` (numbers, booleans) or makes
the subsequent `tags_data["tag"]` subscript raise (strings, lists) unless
the `in` test already fails. -/
def transform_tags : J → PyResult J
  | J.null => .ok (J.arr .nil)
  | J.bool b => if b then .exn else .ok (J.arr .nil)
  | J.num n => if n = 0 then .ok (J.arr .nil) else .exn
  | J.str s =>
      if s = "" then .ok (J.arr .nil)
      else if strContains s "tag" then .exn
      else .ok (J.arr .nil)
  | J.arr xs =>
      if xs.isEmpty then .ok (J.arr .nil)
      else if hasStrElem "tag" xs then .exn
      else .ok (J.arr .nil)
  | J.obj fs =>
      if fs.isEmpty then .ok (J.arr .nil)
      else
        match lookupF fs "tag" with
        | none => .ok (J.arr .nil)
        | some v =>
            match labelsOf v with
            | .ok ls => .ok (J.arr ls)
            | .exn => .exn

/-- `WorkbookManager._transform_views` on the raw value stored under a
workbook's `views` key: same guard as for tags with the inner key `view`,
but the stored inner value is returned unchanged. -/
def transform_views : J → PyResult J
  | J.null => .ok (J.arr .nil)
  | J.bool b => if b then .exn else .ok (J.arr .nil)
  | J.num n => if n = 0 then .ok (J.arr .nil) else .exn
  | J.str s =>
      if s = "" then .ok (J.arr .nil)
      else if strContains s "view" then .exn
      else .ok (J.arr .nil)
  | J.arr xs =>
      if xs.isEmpty then .ok (J.arr .nil)
      else if hasStrElem "view" xs then .exn
      else .ok (J.arr .nil)
  | J.obj fs =>
      if fs.isEmpty then .ok (J.arr .nil)
      else
        match lookupF fs "view" with
        | none => .ok (J.arr .nil)
        | some v => .ok v

/-- `WorkbookManager._transform_workbook`: when the `tags` key is present,
replace its value by `_transform_tags` of it; then the same for `views`
with `_transform_views`.  Python mutates the dict in place, which keeps the
insertion order; `setKey` does the same. -/
def transform_workbook (wb : JFields) : PyResult JFields :=
  let step1 : PyResult JFields :=
    match lookupF wb "tags" with
    | none => .ok wb
    | some tv =>
        match transform_tags tv with
        | .ok ntv => .ok (setKey wb "tags" ntv)
        | .exn => .exn
  match step1 with
  | .exn => .exn
  | .ok wb1 =>
      match lookupF wb1 "views" with
      | none => .ok wb1
      | some vv =>
          match transform_views vv with
          | .ok nvv => .ok (setKey wb1 "views" nvv)
          | .exn => .exn

/-! ## Helper lemmas -/

/-- An object with a successful lookup is not empty. -/
theorem lookupF_ne_nil (fs : JFields) (k : String) (v : J)
    (h : lookupF fs k = some v) : fs.isEmpty = false := by
  cases fs with
  | nil => simp [lookupF] at h
  | fcons k' v' rest => rfl

/-- Writing back the value a key already stores leaves the object
unchanged. -/
theorem setKey_lookup_self :
    ∀ (fs : JFields) (k : String) (v : J),
      lookupF fs k = some v → setKey fs k v = fs
  | .nil, _, _, _ => rfl
  | .fcons k' v' rest, k, v, h => by
      by_cases hk : k' = k
      · subst hk
        simp [lookupF] at h
        simp [setKey, h]
      · simp [lookupF, hk] at h
        simp [setKey, hk, setKey_lookup_self rest k v h]

/-- `setKey` does not disturb lookups at other keys. -/
theorem lookupF_setKey_ne :
    ∀ (fs : JFields) (key k : String) (v : J),
      k ≠ key → lookupF (setKey fs key v) k = lookupF fs k
  | .nil, _, _, _, _ => rfl
  | .fcons k' v' rest, key, k, v, h => by
      by_cases hk : k' = key
      · subst hk
        have hkk : ¬(k' = k) := fun hkk => h (hkk ▸ rfl)
        simp [setKey, lookupF, hkk]
      · by_cases hkk : k' = k
        · simp [setKey, hk, lookupF, hkk, h]
        · simp [setKey, hk, lookupF, hkk, lookupF_setKey_ne rest key k v h]

/-- The well-formed tag lists of claim C5: `ts` is a JSON array of objects
each carrying a `label` field, and `ls` the corresponding labels. -/
inductive LabelList : JList → JList → Prop where
  | nil : LabelList .nil .nil
  | cons (tf : JFields) (l : J) (ts ls : JList) :
      lookupF tf "label" = some l → LabelList ts ls →
      LabelList (.cons (J.obj tf) ts) (.cons l ls)

/-- On a well-formed tag list the label comprehension succeeds and yields
exactly the labels. -/
theorem extractLabels_ok (ts ls : JList) (h : LabelList ts ls) :
    extractLabels ts = .ok ls := by
  induction h with
  | nil => rfl
  | cons tf l ts' ls' hl _ ih => simp [extractLabels, hl, ih]

/-! ## Claim C5 -/

/-- C5: a tags wrapper of the form `{"tag": [{"label": "x"}, ...]}` is
flattened by the workbook transformation to the list of label strings, and
a `None` or absent `tag` wrapper yields the empty list; a views wrapper
`{"view": [...]}` is flattened to the inner list, with `None` or absent
wrapper yielding the empty list. -/
theorem c5_tag_view_flattening :
    (∀ (fs : JFields) (ts ls : JList),
        lookupF fs "tag" = some (J.arr ts) → LabelList ts ls →
        transform_tags (J.obj fs) = .ok (J.arr ls)) ∧
    transform_tags J.null = .ok (J.arr .nil) ∧
    (∀ fs : JFields, lookupF fs "tag" = none →
        transform_tags (J.obj fs) = .ok (J.arr .nil)) ∧
    (∀ (fs : JFields) (vs : JList),
        lookupF fs "view" = some (J.arr vs) →
        transform_views (J.obj fs) = .ok (J.arr vs)) ∧
    transform_views J.null = .ok (J.arr .nil) ∧
    (∀ fs : JFields, lookupF fs "view" = none →
        transform_views (J.obj fs) = .ok (J.arr .nil)) := by
  refine ⟨?_, rfl, ?_, ?_, rfl, ?_⟩
  · intro fs ts ls hl hll
    have hne := lookupF_ne_nil fs "tag" _ hl
    simp [transform_tags, hne, hl, labelsOf, extractLabels_ok ts ls hll]
  · intro fs hl
    cases fs with
    | nil => rfl
    | fcons k v rest => simp [transform_tags, JFields.isEmpty, hl]
  · intro fs vs hl
    have hne := lookupF_ne_nil fs "view" _ hl
    simp [transform_views, hne, hl]
  · intro fs hl
    cases fs with
    | nil => rfl
    | fcons k v rest => simp [transform_views, JFields.isEmpty, hl]

/-- Witness for C5 at the spec's own example `{tag: [{label: "x"}]}`. -/
theorem c5_tag_view_flattening_witness :
    transform_tags (J.obj (.fcons "tag"
        (J.arr (.cons (J.obj (.fcons "label" (J.str "x") .nil)) .nil)) .nil)) =
      .ok (J.arr (.cons (J.str "x") .nil)) :=
  c5_tag_view_flattening.1
    (.fcons "tag" (J.arr (.cons (J.obj (.fcons "label" (J.str "x") .nil)) .nil)) .nil)
    (.cons (J.obj (.fcons "label" (J.str "x") .nil)) .nil)
    (.cons (J.str "x") .nil)
    (by decide)
    (LabelList.cons (.fcons "label" (J.str "x") .nil) (J.str "x") .nil .nil
      (by decide) LabelList.nil)

/-! ## Claim C6 -/

/-- C6 fails on the code: the reshaping is not idempotent.  The record
`{"tags": {"tag": [{"label": "x"}]}}` is transformed to
`{"tags": ["x"]}`, but transforming that once more yields `{"tags": []}`,
because the flat list `["x"]` is truthy and does not contain the string
`"tag"`, so `_transform_tags` returns `[]` for it. -/
theorem c6_counterexample :
    transform_workbook (.fcons "tags" (J.obj (.fcons "tag"
        (J.arr (.cons (J.obj (.fcons "label" (J.str "x") .nil)) .nil)) .nil)) .nil) =
      .ok (.fcons "tags" (J.arr (.cons (J.str "x") .nil)) .nil) ∧
    transform_workbook (.fcons "tags" (J.arr (.cons (J.str "x") .nil)) .nil) =
      .ok (.fcons "tags" (J.arr .nil) .nil) ∧
    JFields.fcons "tags" (J.arr .nil) .nil ≠
      .fcons "tags" (J.arr (.cons (J.str "x") .nil)) .nil :=
  ⟨by decide, by decide, by decide⟩

/-- C6 amended: the reshaping is not idempotent in general (see the
counterexample: re-transforming the transformed record `{"tags": ["x"]}`
yields `{"tags": []}`); it does leave unchanged — and is therefore
idempotent on — every record whose `tags` and `views` entries, when
present, are already empty flat lists, in particular the output of
transforming a record whose wrappers are empty or absent. -/
theorem c6_amended (wb : JFields)
    (htags : lookupF wb "tags" = none ∨ lookupF wb "tags" = some (J.arr .nil))
    (hviews : lookupF wb "views" = none ∨ lookupF wb "views" = some (J.arr .nil)) :
    transform_workbook wb = .ok wb := by
  have step1 :
      (match lookupF wb "tags" with
       | none => PyResult.ok wb
       | some tv =>
           match transform_tags tv with
           | .ok ntv => .ok (setKey wb "tags" ntv)
           | .exn => .exn) = PyResult.ok wb := by
    rcases htags with h | h
    · simp [h]
    · simp [h, transform_tags, JList.isEmpty, setKey_lookup_self wb "tags" _ h]
  have step2 :
      (match lookupF wb "views" with
       | none => PyResult.ok wb
       | some vv =>
           match transform_views vv with
           | .ok nvv => .ok (setKey wb "views" nvv)
           | .exn => .exn) = PyResult.ok wb := by
    rcases hviews with h | h
    · simp [h]
    · simp [h, transform_views, JList.isEmpty, setKey_lookup_self wb "views" _ h]
  unfold transform_workbook
  rw [step1]
  exact step2

/-- Witness for the amended C6 at a record whose flattened lists are
empty. -/
theorem c6_amended_witness :
    transform_workbook (.fcons "tags" (J.arr .nil) (.fcons "views" (J.arr .nil) .nil)) =
      .ok (.fcons "tags" (J.arr .nil) (.fcons "views" (J.arr .nil) .nil)) :=
  c6_amended _ (Or.inr (by decide)) (Or.inr (by decide))

/-! ## Claim C10 -/

/-- C10: the workbook transformation touches only the `tags` and `views`
keys; the value stored at every other key is unchanged. -/
theorem c10_frame (wb wb' : JFields) (h : transform_workbook wb = .ok wb')
    (k : String) (hk1 : k ≠ "tags") (hk2 : k ≠ "views") :
    lookupF wb' k = lookupF wb k := by
  unfold transform_workbook at h
  cases h1 : lookupF wb "tags" with
  | none =>
      simp only [h1] at h
      cases h2 : lookupF wb "views" with
      | none =>
          simp only [h2] at h
          cases h
          rfl
      | some vv =>
          simp only [h2] at h
          cases h3 : transform_views vv with
          | ok nvv =>
              simp only [h3] at h
              cases h
              exact lookupF_setKey_ne wb "views" k nvv hk2
          | exn => simp [h3] at h
  | some tv =>
      simp only [h1] at h
      cases h3 : transform_tags tv with
      | ok ntv =>
          simp only [h3] at h
          have base : lookupF (setKey wb "tags" ntv) k = lookupF wb k :=
            lookupF_setKey_ne wb "tags" k ntv hk1
          cases h2 : lookupF (setKey wb "tags" ntv) "views" with
          | none =>
              simp only [h2] at h
              cases h
              exact base
          | some vv =>
              simp only [h2] at h
              cases h4 : transform_views vv with
              | ok nvv =>
                  simp only [h4] at h
                  cases h
                  rw [lookupF_setKey_ne _ "views" k nvv hk2]
                  exact base
              | exn => simp [h4] at h
      | exn => simp [h3] at h

/-- Witness for C10: the `id` field of a transformed record. -/
theorem c10_frame_witness :
    lookupF (.fcons "id" (J.str "w1") (.fcons "tags" (J.arr .nil) .nil)) "id" =
      lookupF (.fcons "id" (J.str "w1") (.fcons "tags" (J.obj .nil) .nil)) "id" :=
  c10_frame (.fcons "id" (J.str "w1") (.fcons "tags" (J.obj .nil) .nil))
    (.fcons "id" (J.str "w1") (.fcons "tags" (J.arr .nil) .nil))
    (by decide) "id" (by decide) (by decide)

/-! ## Claim C2 -/

/-- A sign-in response that never leads to a half-populated session: when
it is a 200 with a decoded object body whose `credentials` entry is an
object, the `site` entry of the credentials must be absent or an object,
and the token and the site id must be both present or both absent. -/
def wellFormedAuth (net : AuthNet) : Bool :=
  if net.status = 200 then
    match net.body with
    | some (J.obj dataF) =>
        match pyGetD dataF "credentials" with
        | .obj credF =>
            match pyGetD credF "site" with
            | .obj siteF => (pyGet credF "token").isSome == (pyGet siteF "id").isSome
            | _ => false
        | _ => true
    | _ => true
  else true

/-- The session states reachable when every sign-in response is
well-formed in the sense of `wellFormedAuth`. -/
inductive ReachableWF : ClientState → Prop where
  | init : ReachableWF initState
  | auth (st : ClientState) (net : AuthNet) :
      ReachableWF st → wellFormedAuth net = true →
      ReachableWF (authenticate st net).1
  | sout (st : ClientState) (net : SignoutNet) :
      ReachableWF st → ReachableWF (signout st net).1

/-- A well-formed sign-in preserves the both-absent-or-both-present
invariant. -/
theorem auth_preserves_inv (st : ClientState) (net : AuthNet)
    (hwf : wellFormedAuth net = true)
    (hinv : st.auth_token = none ↔ st.site_uuid = none) :
    ((authenticate st net).1.auth_token = none ↔
      (authenticate st net).1.site_uuid = none) := by
  unfold authenticate
  by_cases ht : net.transportExn
  · simpa [ht] using hinv
  · simp only [ht, if_false, Bool.false_eq_true]
    by_cases hs : net.status = 200
    · simp only [hs, if_true]
      unfold wellFormedAuth at hwf
      simp only [hs, if_true] at hwf
      cases hb : net.body with
      | none => simpa using hinv
      | some data =>
          simp only [hb] at hwf ⊢
          cases data with
          | null => simpa using hinv
          | bool b => simpa using hinv
          | num n => simpa using hinv
          | str s => simpa using hinv
          | arr xs => simpa using hinv
          | obj dataF =>
              cases hc : pyGetD dataF "credentials" with
              | obj credF =>
                  simp only [hc] at hwf ⊢
                  cases hsi : pyGetD credF "site" with
                  | obj siteF =>
                      simp only [hsi] at hwf ⊢
                      have hiso : (pyGet credF "token").isSome = (pyGet siteF "id").isSome := by
                        simpa using hwf
                      cases hto : pyGet credF "token" <;>
                        cases hio : pyGet siteF "id" <;> simp_all
                  | null => simp [hsi] at hwf
                  | bool b => simp [hsi] at hwf
                  | num n => simp [hsi] at hwf
                  | str s => simp [hsi] at hwf
                  | arr xs => simp [hsi] at hwf
              | null => simpa [hc] using hinv
              | bool b => simpa [hc] using hinv
              | num n => simpa [hc] using hinv
              | str s => simpa [hc] using hinv
              | arr xs => simpa [hc] using hinv
    · simpa [hs] using hinv

/-- Sign-out always preserves the invariant. -/
theorem sout_preserves_inv (st : ClientState) (net : SignoutNet)
    (hinv : st.auth_token = none ↔ st.site_uuid = none) :
    ((signout st net).1.auth_token = none ↔
      (signout st net).1.site_uuid = none) := by
  unfold signout
  by_cases h : is_authenticated st
  · cases net <;> simp [h]
  · simpa [h] using hinv

/-- C2 fails on the code as stated: with an arbitrary 200 sign-in response
that carries a token but no site object — `{"credentials": {"token":
"t"}}` — the client ends with `auth_token` set and `site_uuid` still
`None`, a reachable state violating the invariant. -/
theorem c2_counterexample :
    Reachable (authenticate initState
      ⟨false, 200, some (J.obj (.fcons "credentials"
        (J.obj (.fcons "token" (J.str "t") .nil)) .nil))⟩).1 ∧
    ¬(((authenticate initState
      ⟨false, 200, some (J.obj (.fcons "credentials"
        (J.obj (.fcons "token" (J.str "t") .nil)) .nil))⟩).1.auth_token = none) ↔
      ((authenticate initState
      ⟨false, 200, some (J.obj (.fcons "credentials"
        (J.obj (.fcons "token" (J.str "t") .nil)) .nil))⟩).1.site_uuid = none)) :=
  ⟨Reachable.auth _ _ Reachable.init, by decide⟩

/-- C2 amended: for every state reachable by construction followed by any
sequence of `authenticate` and `signout` calls whose 200 sign-in responses
are well-formed (site entry absent or an object; token and site id both
present or both absent), `auth_token` and `site_uuid` are both absent or
both present. -/
theorem c2_amended (st : ClientState) (h : ReachableWF st) :
    st.auth_token = none ↔ st.site_uuid = none := by
  induction h with
  | init => simp [initState]
  | auth st' net _ hwf ih => exact auth_preserves_inv st' net hwf ih
  | sout st' net _ ih => exact sout_preserves_inv st' net ih

/-- Witness for the amended C2: a complete sign-in response is well-formed
and the resulting state satisfies the invariant. -/
theorem c2_amended_witness :
    ((authenticate initState
      ⟨false, 200, some (J.obj (.fcons "credentials"
        (J.obj (.fcons "token" (J.str "t")
          (.fcons "site" (J.obj (.fcons "id" (J.str "s") .nil)) .nil))) .nil))⟩).1.auth_token
        = none) ↔
    ((authenticate initState
      ⟨false, 200, some (J.obj (.fcons "credentials"
        (J.obj (.fcons "token" (J.str "t")
          (.fcons "site" (J.obj (.fcons "id" (J.str "s") .nil)) .nil))) .nil))⟩).1.site_uuid
        = none) :=
  c2_amended _ (ReachableWF.auth _ _ ReachableWF.init (by decide))

/-! ## Claim C3 -/

/-- C3 fails on the code as stated: a 401 response makes `authenticate`
return `False` without raising, but it does not clear the session — a
client that was previously authenticated (reachable via a successful
sign-in) keeps its token and is still authenticated afterwards. -/
theorem c3_counterexample :
    Reachable (authenticate initState
      ⟨false, 200, some (J.obj (.fcons "credentials"
        (J.obj (.fcons "token" (J.str "t")
          (.fcons "site" (J.obj (.fcons "id" (J.str "s") .nil)) .nil))) .nil))⟩).1 ∧
    authenticate (authenticate initState
      ⟨false, 200, some (J.obj (.fcons "credentials"
        (J.obj (.fcons "token" (J.str "t")
          (.fcons "site" (J.obj (.fcons "id" (J.str "s") .nil)) .nil))) .nil))⟩).1
      ⟨false, 401, some (J.obj .nil)⟩ =
      ((authenticate initState
        ⟨false, 200, some (J.obj (.fcons "credentials"
          (J.obj (.fcons "token" (J.str "t")
            (.fcons "site" (J.obj (.fcons "id" (J.str "s") .nil)) .nil))) .nil))⟩).1,
       .returned false) ∧
    is_authenticated (authenticate initState
      ⟨false, 200, some (J.obj (.fcons "credentials"
        (J.obj (.fcons "token" (J.str "t")
          (.fcons "site" (J.obj (.fcons "id" (J.str "s") .nil)) .nil))) .nil))⟩).1 = true :=
  ⟨Reachable.auth _ _ Reachable.init, by decide, by decide⟩

/-- C3 amended: a 401 response makes `authenticate` return `False` without
raising and leaves the session state exactly as it was — no field is
cleared; in particular a never-authenticated client remains
unauthenticated. -/
theorem c3_amended (st : ClientState) (net : AuthNet)
    (h1 : net.transportExn = false) (h2 : net.status = 401) :
    authenticate st net = (st, .returned false) ∧
    (st = initState → is_authenticated (authenticate st net).1 = false) := by
  have hmain : authenticate st net = (st, .returned false) := by
    unfold authenticate
    simp [h1, h2]
  refine ⟨hmain, fun hinit => ?_⟩
  rw [hmain, hinit]
  rfl

/-- Witness for the amended C3 at a fresh client and a concrete 401. -/
theorem c3_amended_witness :
    authenticate initState ⟨false, 401, some (J.obj .nil)⟩ =
      (initState, .returned false) ∧
    (initState = initState →
      is_authenticated (authenticate initState ⟨false, 401, some (J.obj .nil)⟩).1 = false) :=
  c3_amended initState ⟨false, 401, some (J.obj .nil)⟩ rfl rfl

/-! ## Claim C4 -/

/-- C4: when the client is authenticated, `signout` clears `auth_token`
and `site_uuid` whatever the network outcome, and returns `True` exactly
when the server answered 204; when the client is not authenticated it
returns `True` with the state untouched, without any network call — the
result does not depend on the network outcome at all. -/
theorem c4_signout (st : ClientState) :
    (is_authenticated st = true →
      ∀ net : SignoutNet,
        (signout st net).1 = ⟨none, none⟩ ∧
        ((signout st net).2 = true ↔ net = .response 204)) ∧
    (is_authenticated st = false →
      (∀ net net' : SignoutNet, signout st net = signout st net') ∧
      ∀ net : SignoutNet, signout st net = (st, true)) := by
  constructor
  · intro h net
    cases net with
    | response status =>
        refine ⟨by simp [signout, h], ?_⟩
        simp only [signout, h, if_true]
        constructor
        · intro hs
          have : status = 204 := by simpa using hs
          rw [this]
        · intro hn
          cases hn
          simp
    | transportExn => simp [signout, h]
  · intro h
    constructor
    · intro net net'
      simp [signout, h]
    · intro net
      simp [signout, h]

/-- Witness for C4: an authenticated client acknowledged with 204. -/
theorem c4_signout_witness :
    (signout ⟨some (J.str "t"), some (J.str "s")⟩ (.response 204)).1 = ⟨none, none⟩ ∧
    ((signout ⟨some (J.str "t"), some (J.str "s")⟩ (.response 204)).2 = true ↔
      SignoutNet.response 204 = .response 204) :=
  (c4_signout ⟨some (J.str "t"), some (J.str "s")⟩).1 rfl (.response 204)

/-! ## Claim C7 -/

/-- C7 fails on the code as stated: reading "a token is currently held" as
the code's own `is_authenticated` (`auth_token is not None`), the claim is
refuted by the reachable state produced by a 200 sign-in whose token is
the empty string — the client then holds a token (`is_authenticated` is
true) but `headers` contains no X-Tableau-Auth entry, because the header
is guarded by Python truthiness (`if self.auth_token:`), not by `is not
None`. -/
theorem c7_counterexample :
    Reachable (authenticate initState
      ⟨false, 200, some (J.obj (.fcons "credentials"
        (J.obj (.fcons "token" (J.str "")
          (.fcons "site" (J.obj (.fcons "id" (J.str "s") .nil)) .nil))) .nil))⟩).1 ∧
    is_authenticated (authenticate initState
      ⟨false, 200, some (J.obj (.fcons "credentials"
        (J.obj (.fcons "token" (J.str "")
          (.fcons "site" (J.obj (.fcons "id" (J.str "s") .nil)) .nil))) .nil))⟩).1 = true ∧
    hLookup (headers (authenticate initState
      ⟨false, 200, some (J.obj (.fcons "credentials"
        (J.obj (.fcons "token" (J.str "")
          (.fcons "site" (J.obj (.fcons "id" (J.str "s") .nil)) .nil))) .nil))⟩).1)
      "X-Tableau-Auth" = none :=
  ⟨Reachable.auth _ _ Reachable.init, by decide, by decide⟩

/-- C7 amended: for every client state, the header map always contains the
Content-Type entry `application/json`, and contains the X-Tableau-Auth
entry exactly when the held token value is truthy (a non-`None`,
non-empty token). -/
theorem c7_amended (st : ClientState) :
    hLookup (headers st) "Content-Type" = some (J.str "application/json") ∧
    ((hLookup (headers st) "X-Tableau-Auth").isSome = true ↔
      optTruthy st.auth_token = true) := by
  by_cases h : optTruthy st.auth_token <;> simp [headers, hLookup, h]

/-! ## Claim C9 -/

/-- C9: a 200 sign-in response whose credentials envelope carries no token
(and whose site entry, if any, is an object) makes `authenticate` return
`True` while storing `None` in `auth_token`, so the call reports success
but `is_authenticated` stays false. -/
theorem c9_success_without_token (st : ClientState) (net : AuthNet)
    (dataF credF siteF : JFields)
    (hne : net.transportExn = false) (hst : net.status = 200)
    (hbody : net.body = some (J.obj dataF))
    (hcred : pyGetD dataF "credentials" = J.obj credF)
    (htok : pyGet credF "token" = none)
    (hsite : pyGetD credF "site" = J.obj siteF) :
    (authenticate st net).2 = .returned true ∧
    (authenticate st net).1.auth_token = none ∧
    is_authenticated (authenticate st net).1 = false := by
  unfold authenticate
  simp [hne, hst, hbody, hcred, htok, hsite, is_authenticated]

/-- Witness for C9: `{"credentials": {}}` on a fresh client. -/
theorem c9_success_without_token_witness :
    (authenticate initState
      ⟨false, 200, some (J.obj (.fcons "credentials" (J.obj .nil) .nil))⟩).2 =
      .returned true ∧
    (authenticate initState
      ⟨false, 200, some (J.obj (.fcons "credentials" (J.obj .nil) .nil))⟩).1.auth_token =
      none ∧
    is_authenticated (authenticate initState
      ⟨false, 200, some (J.obj (.fcons "credentials" (J.obj .nil) .nil))⟩).1 = false :=
  c9_success_without_token initState _ (.fcons "credentials" (J.obj .nil) .nil) .nil .nil
    rfl rfl rfl (by decide) (by decide) (by decide)

/-! ## Claim C1 -/

/-- The status-to-outcome mapping exactly as claim C1 words it, for a
response whose body decodes to the JSON object `bodyF`: 429 → rate-limit
with the Retry-After hint (`"unknown"` if absent); ≥ 500 → server error
with the raw body; 400 with an `errors` field → syntax error with the
envelope; any other non-2xx status → generic HTTP error; 200 with a
top-level `errors` field → execution error; otherwise the decoded body
unchanged.  Spec-side definition, written from the claim's words for
comparison with `metadataQuery`. -/
def claimC1Outcome (status : Nat) (retryAfter : Option String)
    (rawBody : String) (bodyF : JFields) : QueryOutcome :=
  if status = 429 then .rateLimited (retryAfter.getD "unknown")
  else if 500 ≤ status then .serverErr rawBody
  else if status = 400 ∧ (lookupF bodyF "errors").isSome then
    .graphqlBad ((lookupF bodyF "errors").getD J.null)
  else if ¬(200 ≤ status ∧ status < 300) then .httpErr status
  else if status = 200 ∧ (lookupF bodyF "errors").isSome then
    .executionErr ((lookupF bodyF "errors").getD J.null)
  else .success (J.obj bodyF)

/-- C1 fails on the code as stated: at status 304 — a non-2xx status not
covered by the 429/500/400 branches — the claim's mapping demands a
generic HTTP error, but `raise_for_status()` only raises for statuses from
400 on, so the code returns the decoded body unchanged. -/
theorem c1_counterexample :
    metadataQuery "x" ⟨304, none, "", some (J.obj .nil)⟩ = .success (J.obj .nil) ∧
    claimC1Outcome 304 none "" .nil = .httpErr 304 ∧
    QueryOutcome.success (J.obj .nil) ≠ .httpErr 304 :=
  ⟨by decide, by decide, by decide⟩

/-- C1 amended: for a non-empty query, 429 → rate-limit error with the
server's Retry-After hint (`"unknown"` if absent); ≥ 500 → server error
with the raw body; 400 with a decoded object body → syntax error with the
`errors` envelope when present, bad-request validation error otherwise;
any other status in 401–499 → generic HTTP error; every remaining status
(all of 2xx and 3xx) with a decoded object body → execution error when a
top-level `errors` field is present, otherwise the decoded body returned
unchanged. -/
theorem c1_amended (q : String) (resp : HttpResponse) (hq : q ≠ "") :
    (resp.status = 429 →
      metadataQuery q resp = .rateLimited (resp.retryAfter.getD "unknown")) ∧
    (500 ≤ resp.status → metadataQuery q resp = .serverErr resp.rawBody) ∧
    (∀ fs : JFields, resp.status = 400 → resp.body = some (J.obj fs) →
      metadataQuery q resp =
        (match lookupF fs "errors" with
         | some e => .graphqlBad e
         | none => .badRequest resp.rawBody)) ∧
    (401 ≤ resp.status → resp.status ≤ 499 → resp.status ≠ 429 →
      metadataQuery q resp = .httpErr resp.status) ∧
    (∀ fs : JFields, resp.status < 400 → resp.status ≠ 429 →
      resp.body = some (J.obj fs) →
      metadataQuery q resp =
        (match lookupF fs "errors" with
         | some e => .executionErr e
         | none => .success (J.obj fs))) := by
  refine ⟨?_, ?_, ?_, ?_, ?_⟩
  · intro h
    simp [metadataQuery, hq, h]
  · intro h
    have h429 : resp.status ≠ 429 := by omega
    simp [metadataQuery, hq, h429, h]
  · intro fs h hb
    have h429 : resp.status ≠ 429 := by omega
    have h500 : ¬ 500 ≤ resp.status := by omega
    cases he : lookupF fs "errors" with
    | none => simp [metadataQuery, hq, h429, h500, h, hb, errorsField, he]
    | some e => simp [metadataQuery, hq, h429, h500, h, hb, errorsField, he]
  · intro h1 h2 h429
    have h500 : ¬ 500 ≤ resp.status := by omega
    have h400 : resp.status ≠ 400 := by omega
    have h400le : 400 ≤ resp.status := by omega
    simp [metadataQuery, hq, h429, h500, h400, h400le]
  · intro fs hlt h429 hb
    have h500 : ¬ 500 ≤ resp.status := by omega
    have h400 : resp.status ≠ 400 := by omega
    have h400le : ¬ 400 ≤ resp.status := by omega
    cases he : lookupF fs "errors" with
    | none => simp [metadataQuery, hq, h429, h500, h400, h400le, hb, errorsField, he]
    | some e => simp [metadataQuery, hq, h429, h500, h400, h400le, hb, errorsField, he]

/-- Witness for the amended C1 at a concrete 429 response. -/
theorem c1_amended_witness :
    metadataQuery "x" ⟨429, some "5", "", none⟩ = .rateLimited "5" :=
  (c1_amended "x" ⟨429, some "5", "", none⟩ (by decide)).1 rfl

/-! ## Claim C8 -/

/-- C8: an empty query string makes `MetadataAPI.query` raise the
validation `ValueError` before any network call: the outcome is
`emptyQuery` whatever HTTP response the network would have produced, so
in particular no state is touched. -/
theorem c8_empty_query (resp : HttpResponse) :
    metadataQuery "" resp = .emptyQuery := rfl

end Pybleau
